import Mathlib

/-!
Shallow embedding of the gpmf-rs library (GoPro GPMF parser and session
builder) for checking its natural-language specification.

Rust `f64` values are modelled as `ℚ`, Rust strings as Lean `String`
(or as lists of bytes where raw byte content matters), `time::Duration`
values as integer milliseconds, and machine integers as `ℕ`/`ℤ` with
explicit clamping where Rust saturating casts occur.  Panics are
modelled as the `error` branch of `Except Panic`.
-/

namespace GpmfRs

/-- Panic marker: models a Rust `assert!`/`panic!` abort. -/
inductive Panic where
  | assertFailed
deriving DecidableEq

/-- Library error type (`GpmfError` in `src/errors.rs`, not in the shipped
sources; the two variants used by the claims are named in `gopro/file.rs`). -/
inductive GpmfErr where
  | fingerprintMismatch
  | pathNotSet
deriving DecidableEq

deriving instance DecidableEq for Except

/-! ## FourCC registry (`src/gpmf/fourcc.rs`) -/

/-- FourCC enum from `src/gpmf/fourcc.rs`.  `Other` carries the bytes of the
Rust `String` produced by `String::from_utf8_lossy` (a Rust `String` is its
UTF-8 byte content). -/
inductive FourCC where
  | DEVC | DVID | DVNM | STRM | STNM | RMRK | SCAL | SIUN | UNIT | TYPE
  | TSMP | TIMO | EMPT
  | AALP | ACCL | ALLD | CORI | DISP | FACE | FCNM | GPS5 | GPSF | GPSP
  | GPSU | GPSA | GRAV | GYRO | HUES | IORI | ISOE | ISOG | LSKP | MAGN
  | MSKP | MWET | ORIN | ORIO4 | MTRX | SCEN | SHUT | SROT | STMP | UNIF
  | WBAL | WNDM | WRGB | YAVG
  | MSLV | SNOW | URBA | INDO | WATR | VEGE | BEAC
  | FIRM | LENS | CAME | SETT | AMBA | MUID | HMMT | BCID | GUMI
  | MINF
  | Invalid
  | Other (s : List ℕ)

/-- The well-known 4-byte patterns of `FourCC::from_slice`, in source order.
First match wins, mirroring the Rust `match` arm order. -/
def knownFourCC : List (List ℕ × FourCC) :=
  [ ([68, 69, 86, 67], FourCC.DEVC), ([68, 86, 73, 68], FourCC.DVID), ([68, 86, 78, 77], FourCC.DVNM),
    ([83, 84, 82, 77], FourCC.STRM), ([83, 84, 78, 77], FourCC.STNM), ([82, 77, 82, 75], FourCC.RMRK),
    ([83, 67, 65, 76], FourCC.SCAL), ([83, 73, 85, 78], FourCC.SIUN), ([85, 78, 73, 84], FourCC.UNIT),
    ([84, 89, 80, 69], FourCC.TYPE), ([84, 83, 77, 80], FourCC.TSMP), ([84, 73, 77, 79], FourCC.TIMO),
    ([69, 77, 80, 84], FourCC.EMPT),
    ([65, 65, 76, 80], FourCC.AALP), ([65, 67, 67, 76], FourCC.ACCL), ([65, 76, 76, 68], FourCC.ALLD),
    ([67, 79, 82, 73], FourCC.CORI), ([68, 73, 83, 80], FourCC.DISP), ([70, 65, 67, 69], FourCC.FACE),
    ([70, 67, 78, 77], FourCC.FCNM), ([71, 80, 83, 53], FourCC.GPS5), ([71, 80, 83, 70], FourCC.GPSF),
    ([71, 80, 83, 80], FourCC.GPSP), ([71, 80, 83, 85], FourCC.GPSU), ([71, 80, 83, 65], FourCC.GPSA),
    ([71, 82, 65, 86], FourCC.GRAV), ([71, 89, 82, 79], FourCC.GYRO), ([72, 85, 69, 83], FourCC.HUES),
    ([73, 79, 82, 73], FourCC.IORI), ([73, 83, 79, 69], FourCC.ISOE), ([73, 83, 79, 71], FourCC.ISOG),
    ([76, 83, 75, 80], FourCC.LSKP), ([77, 65, 71, 78], FourCC.MAGN), ([77, 83, 75, 80], FourCC.MSKP),
    ([77, 87, 69, 84], FourCC.MWET), ([79, 82, 73, 78], FourCC.ORIN), ([79, 82, 73, 79], FourCC.ORIO4),
    ([77, 84, 82, 88], FourCC.MTRX), ([83, 67, 69, 78], FourCC.SCEN), ([83, 72, 85, 84], FourCC.SHUT),
    ([83, 82, 79, 84], FourCC.SROT), ([83, 84, 77, 80], FourCC.STMP), ([85, 78, 73, 70], FourCC.UNIF),
    ([87, 66, 65, 76], FourCC.WBAL), ([87, 78, 68, 77], FourCC.WNDM), ([87, 82, 71, 66], FourCC.WRGB),
    ([89, 65, 86, 71], FourCC.YAVG),
    ([77, 83, 76, 86], FourCC.MSLV), ([83, 78, 79, 87], FourCC.SNOW), ([85, 82, 66, 65], FourCC.URBA),
    ([73, 78, 68, 79], FourCC.INDO), ([87, 65, 84, 82], FourCC.WATR), ([86, 69, 71, 69], FourCC.VEGE),
    ([66, 69, 65, 67], FourCC.BEAC),
    ([70, 73, 82, 77], FourCC.FIRM), ([76, 69, 78, 83], FourCC.LENS), ([67, 65, 77, 69], FourCC.CAME),
    ([83, 69, 84, 84], FourCC.SETT), ([65, 77, 66, 65], FourCC.AMBA), ([77, 85, 73, 68], FourCC.MUID),
    ([72, 77, 77, 84], FourCC.HMMT), ([66, 67, 73, 68], FourCC.BCID), ([71, 85, 77, 73], FourCC.GUMI),
    ([77, 73, 78, 70], FourCC.MINF) ]

/-- Is `b` a UTF-8 continuation byte (`0x80..=0xBF`)? -/
def utf8Cont (b : ℕ) : Prop := 128 ≤ b ∧ b ≤ 191

instance (b : ℕ) : Decidable (utf8Cont b) := by unfold utf8Cont; infer_instance

/-- UTF-8 validity of a byte list, as checked by Rust `str::from_utf8`
(table from RFC 3629 / Rust core `utf8_char_width` plus continuation
range checks). -/
def utf8Valid : List ℕ → Bool
  | [] => true
  | b :: rest =>
    if b ≤ 127 then utf8Valid rest
    else if 194 ≤ b ∧ b ≤ 223 then
      match rest with
      | c1 :: r => if utf8Cont c1 then utf8Valid r else false
      | [] => false
    else if b = 224 then
      match rest with
      | c1 :: c2 :: r =>
        if 160 ≤ c1 ∧ c1 ≤ 191 then if utf8Cont c2 then utf8Valid r else false
        else false
      | _ => false
    else if b = 237 then
      match rest with
      | c1 :: c2 :: r =>
        if 128 ≤ c1 ∧ c1 ≤ 159 then if utf8Cont c2 then utf8Valid r else false
        else false
      | _ => false
    else if (225 ≤ b ∧ b ≤ 236) ∨ (238 ≤ b ∧ b ≤ 239) then
      match rest with
      | c1 :: c2 :: r =>
        if utf8Cont c1 then if utf8Cont c2 then utf8Valid r else false
        else false
      | _ => false
    else if b = 240 then
      match rest with
      | c1 :: c2 :: c3 :: r =>
        if 144 ≤ c1 ∧ c1 ≤ 191 then
          if utf8Cont c2 then if utf8Cont c3 then utf8Valid r else false
          else false
        else false
      | _ => false
    else if 241 ≤ b ∧ b ≤ 243 then
      match rest with
      | c1 :: c2 :: c3 :: r =>
        if utf8Cont c1 then
          if utf8Cont c2 then if utf8Cont c3 then utf8Valid r else false
          else false
        else false
      | _ => false
    else if b = 244 then
      match rest with
      | c1 :: c2 :: c3 :: r =>
        if 128 ≤ c1 ∧ c1 ≤ 143 then
          if utf8Cont c2 then if utf8Cont c3 then utf8Valid r else false
          else false
        else false
      | _ => false
    else false

/-- UTF-8 bytes of U+FFFD REPLACEMENT CHARACTER. -/
def utf8Replacement : List ℕ := [239, 191, 189]

/-- Lossy UTF-8 repair with maximal-subpart substitution, as performed by
Rust `String::from_utf8_lossy` on invalid input: each maximal valid prefix
of a malformed sequence is replaced by one U+FFFD and decoding resumes at
the first offending byte.  The fuel argument (instantiated with the input
length, an upper bound since every step consumes at least one byte) makes
the recursion structural. -/
def utf8RepairGo : ℕ → List ℕ → List ℕ
  | 0, _ => []
  | _ + 1, [] => []
  | fuel + 1, b :: rest =>
    if b ≤ 127 then b :: utf8RepairGo fuel rest
    else if 194 ≤ b ∧ b ≤ 223 then
      match rest with
      | c1 :: r =>
        if utf8Cont c1 then b :: c1 :: utf8RepairGo fuel r
        else utf8Replacement ++ utf8RepairGo fuel (c1 :: r)
      | [] => utf8Replacement
    else if b = 224 then
      match rest with
      | c1 :: rest1 =>
        if 160 ≤ c1 ∧ c1 ≤ 191 then
          match rest1 with
          | c2 :: r =>
            if utf8Cont c2 then b :: c1 :: c2 :: utf8RepairGo fuel r
            else utf8Replacement ++ utf8RepairGo fuel (c2 :: r)
          | [] => utf8Replacement
        else utf8Replacement ++ utf8RepairGo fuel (c1 :: rest1)
      | [] => utf8Replacement
    else if b = 237 then
      match rest with
      | c1 :: rest1 =>
        if 128 ≤ c1 ∧ c1 ≤ 159 then
          match rest1 with
          | c2 :: r =>
            if utf8Cont c2 then b :: c1 :: c2 :: utf8RepairGo fuel r
            else utf8Replacement ++ utf8RepairGo fuel (c2 :: r)
          | [] => utf8Replacement
        else utf8Replacement ++ utf8RepairGo fuel (c1 :: rest1)
      | [] => utf8Replacement
    else if (225 ≤ b ∧ b ≤ 236) ∨ (238 ≤ b ∧ b ≤ 239) then
      match rest with
      | c1 :: rest1 =>
        if utf8Cont c1 then
          match rest1 with
          | c2 :: r =>
            if utf8Cont c2 then b :: c1 :: c2 :: utf8RepairGo fuel r
            else utf8Replacement ++ utf8RepairGo fuel (c2 :: r)
          | [] => utf8Replacement
        else utf8Replacement ++ utf8RepairGo fuel (c1 :: rest1)
      | [] => utf8Replacement
    else if b = 240 then
      match rest with
      | c1 :: rest1 =>
        if 144 ≤ c1 ∧ c1 ≤ 191 then
          match rest1 with
          | c2 :: rest2 =>
            if utf8Cont c2 then
              match rest2 with
              | c3 :: r =>
                if utf8Cont c3 then b :: c1 :: c2 :: c3 :: utf8RepairGo fuel r
                else utf8Replacement ++ utf8RepairGo fuel (c3 :: r)
              | [] => utf8Replacement
            else utf8Replacement ++ utf8RepairGo fuel (c2 :: rest2)
          | [] => utf8Replacement
        else utf8Replacement ++ utf8RepairGo fuel (c1 :: rest1)
      | [] => utf8Replacement
    else if 241 ≤ b ∧ b ≤ 243 then
      match rest with
      | c1 :: rest1 =>
        if utf8Cont c1 then
          match rest1 with
          | c2 :: rest2 =>
            if utf8Cont c2 then
              match rest2 with
              | c3 :: r =>
                if utf8Cont c3 then b :: c1 :: c2 :: c3 :: utf8RepairGo fuel r
                else utf8Replacement ++ utf8RepairGo fuel (c3 :: r)
              | [] => utf8Replacement
            else utf8Replacement ++ utf8RepairGo fuel (c2 :: rest2)
          | [] => utf8Replacement
        else utf8Replacement ++ utf8RepairGo fuel (c1 :: rest1)
      | [] => utf8Replacement
    else if b = 244 then
      match rest with
      | c1 :: rest1 =>
        if 128 ≤ c1 ∧ c1 ≤ 143 then
          match rest1 with
          | c2 :: rest2 =>
            if utf8Cont c2 then
              match rest2 with
              | c3 :: r =>
                if utf8Cont c3 then b :: c1 :: c2 :: c3 :: utf8RepairGo fuel r
                else utf8Replacement ++ utf8RepairGo fuel (c3 :: r)
              | [] => utf8Replacement
            else utf8Replacement ++ utf8RepairGo fuel (c2 :: rest2)
          | [] => utf8Replacement
        else utf8Replacement ++ utf8RepairGo fuel (c1 :: rest1)
      | [] => utf8Replacement
    else utf8Replacement ++ utf8RepairGo fuel rest

/-- The repair of `String::from_utf8_lossy`, with the fuel instantiated. -/
def utf8Repair (bs : List ℕ) : List ℕ := utf8RepairGo bs.length bs

/-- Rust `String::from_utf8_lossy`: valid input is returned unchanged
(`Cow::Borrowed`), invalid input is repaired with U+FFFD substitutions. -/
def utf8Lossy (bs : List ℕ) : List ℕ :=
  if utf8Valid bs then bs else utf8Repair bs

/-- `FourCC::from_slice` (fourcc.rs lines 207-298): well-known patterns in
match order, then the NUL-padding patterns `b"\0"` / `b"\0\0\0\0"` to
`Invalid`, then the catch-all producing
`FourCC::Other(String::from_utf8_lossy(slice))`.  The `Result` wrapper is
dropped: every arm returns `Ok`. -/
def FourCC.from_slice (bs : List ℕ) : FourCC :=
  match knownFourCC.lookup bs with
  | some f => f
  | none =>
    if bs = [0] ∨ bs = [0, 0, 0, 0] then .Invalid
    else .Other (utf8Lossy bs)

/-- `FourCC::to_str` (fourcc.rs lines 390-476), as the byte content of the
returned `&str`. -/
def FourCC.to_str : FourCC → List ℕ
  | .DEVC => [68, 69, 86, 67] | .DVID => [68, 86, 73, 68] | .DVNM => [68, 86, 78, 77]
  | .STRM => [83, 84, 82, 77] | .STNM => [83, 84, 78, 77] | .RMRK => [82, 77, 82, 75]
  | .SCAL => [83, 67, 65, 76] | .SIUN => [83, 73, 85, 78] | .UNIT => [85, 78, 73, 84]
  | .TYPE => [84, 89, 80, 69] | .TSMP => [84, 83, 77, 80] | .TIMO => [84, 73, 77, 79]
  | .EMPT => [69, 77, 80, 84]
  | .AALP => [65, 65, 76, 80] | .ACCL => [65, 67, 67, 76] | .ALLD => [65, 76, 76, 68]
  | .CORI => [67, 79, 82, 73] | .DISP => [68, 73, 83, 80] | .FACE => [70, 65, 67, 69]
  | .FCNM => [70, 67, 78, 77] | .GPS5 => [71, 80, 83, 53] | .GPSF => [71, 80, 83, 70]
  | .GPSP => [71, 80, 83, 80] | .GPSU => [71, 80, 83, 85] | .GPSA => [71, 80, 83, 65]
  | .GRAV => [71, 82, 65, 86] | .GYRO => [71, 89, 82, 79] | .HUES => [72, 85, 69, 83]
  | .IORI => [73, 79, 82, 73] | .ISOE => [73, 83, 79, 69] | .ISOG => [73, 83, 79, 71]
  | .LSKP => [76, 83, 75, 80] | .MAGN => [77, 65, 71, 78] | .MSKP => [77, 83, 75, 80]
  | .MWET => [77, 87, 69, 84] | .ORIN => [79, 82, 73, 78] | .ORIO4 => [79, 82, 73, 79]
  | .MTRX => [77, 84, 82, 88] | .SCEN => [83, 67, 69, 78] | .SHUT => [83, 72, 85, 84]
  | .SROT => [83, 82, 79, 84] | .STMP => [83, 84, 77, 80] | .UNIF => [85, 78, 73, 70]
  | .WBAL => [87, 66, 65, 76] | .WNDM => [87, 78, 68, 77] | .WRGB => [87, 82, 71, 66]
  | .YAVG => [89, 65, 86, 71]
  | .MSLV => [77, 83, 76, 86] | .SNOW => [83, 78, 79, 87] | .URBA => [85, 82, 66, 65]
  | .INDO => [73, 78, 68, 79] | .WATR => [87, 65, 84, 82] | .VEGE => [86, 69, 71, 69]
  | .BEAC => [66, 69, 65, 67]
  | .FIRM => [70, 73, 82, 77] | .LENS => [76, 69, 78, 83] | .CAME => [67, 65, 77, 69]
  | .SETT => [83, 69, 84, 84] | .AMBA => [65, 77, 66, 65] | .MUID => [77, 85, 73, 68]
  | .HMMT => [72, 77, 77, 84] | .BCID => [66, 67, 73, 68] | .GUMI => [71, 85, 77, 73]
  | .MINF => [77, 73, 78, 70]
  | .Invalid => [73, 78, 86, 65, 76, 73, 68, 95, 70, 79, 85, 82, 67, 67]
  | .Other s => s

/-! ## Timestamp (`src/gpmf/timestamp.rs`) -/

/-- `Timestamp` from timestamp.rs: relative time since video start and the
DEVC sample duration, both `time::Duration`, modelled as milliseconds. -/
structure Timestamp where
  relative : ℤ
  duration : ℤ
deriving DecidableEq

/-- `Timestamp::add` (timestamp.rs lines 92-98): extends `self` by
`other`, adding `other.relative + other.duration` to `self.relative` and
leaving `self.duration` unchanged (`..self.to_owned()`). -/
def Timestamp.add (self other : Timestamp) : Timestamp :=
  { relative := self.relative + other.relative + other.duration,
    duration := self.duration }

/-! ## Stream tree and Gpmf (`src/gpmf/gpmf.rs`).

`stream.rs` is not among the shipped sources.  Modelled from the spec:
a stream node has a FourCC, either a list of values or a list of child
streams, and an optional sample timestamp; numeric values are kept as
`ℚ` (only numeric payloads matter for the claims below). -/

inductive Stream where
  | values (fourcc : FourCC) (time : Option Timestamp) (vals : List ℚ) : Stream
  | nested (fourcc : FourCC) (time : Option Timestamp) (children : List Stream) : Stream

/-- The `time` field of a stream node. -/
def Stream.timeOf : Stream → Option Timestamp
  | .values _ t _ => t
  | .nested _ t _ => t

/-- Assignment to the `time` field of a stream node
(`devc.time = ...` in `Gpmf::offset_time`). -/
def Stream.withTime : Stream → Option Timestamp → Stream
  | .values f _ v, t => .values f t v
  | .nested f _ c, t => .nested f t c

/-- Core `Gpmf` struct (gpmf.rs lines 50-57): top-level streams plus the
source paths the data came from. -/
structure Gpmf where
  streams : List Stream
  source : List String

/-- `Gpmf::first_timestamp` (gpmf.rs lines 450-452). -/
def Gpmf.first_timestamp (g : Gpmf) : Option Timestamp :=
  g.streams.head?.bind Stream.timeOf

/-- `Gpmf::last_timestamp` (gpmf.rs lines 455-457). -/
def Gpmf.last_timestamp (g : Gpmf) : Option Timestamp :=
  g.streams.getLast?.bind Stream.timeOf

/-- `Gpmf::offset_time` (gpmf.rs lines 444-447): every top-level `DEVC`
time is replaced by `t.add(time)`. -/
def Gpmf.offset_time (g : Gpmf) (time : Timestamp) : Gpmf :=
  { g with streams :=
      g.streams.map (fun devc => devc.withTime (devc.timeOf.map (fun t => t.add time))) }

/-- `Gpmf::merge_mut` (gpmf.rs lines 374-387): offset the incoming gpmf by
`self`'s last timestamp (when present), then append its streams and
sources.  The final state of `self` is returned. -/
def Gpmf.merge_mut (self gpmf : Gpmf) : Gpmf :=
  let g2 := match self.last_timestamp with
    | some ts => gpmf.offset_time ts
    | none => gpmf
  { streams := self.streams ++ g2.streams,
    source := self.source ++ g2.source }

/-! ## Device names and clip descriptors (`src/gopro/`) -/

/-- GoPro camera model.  The shipped `device_name.rs` is an older revision
without the `Hero12Black`, `Hero13Black` and `Unknown` variants that
`session.rs` and `sensor_data.rs` match on; those variants are added here
as used by that code (the spec describes the enum as having an "Unknown"
tail). -/
inductive DeviceName where
  | hero5Black | hero6Black | hero7Black | hero8Black | hero9Black
  | hero10Black | hero11Black | hero12Black | hero13Black
  | fusion | goProMax | goProKarma | unknown
deriving DecidableEq

/-- `GoProFile` (gopro/file.rs lines 70-94): clip descriptor.  Paths are
modelled as strings, `muid : [u32; 8]` and `gumi : [u32; 4]` as lists of
naturals, the Blake3 fingerprint as its byte list, and the MP4 times as
integers (creation time, duration, time of first frame). -/
structure GoProFile where
  device : DeviceName
  mp4 : Option String
  lrv : Option String
  muid : List ℕ
  gumi : List ℕ
  fingerprint : List ℕ
  creation_time : ℤ
  duration : ℤ
  time_first_frame : ℤ
deriving DecidableEq

/-- `GoProFile::matches` (gopro/file.rs lines 475-486): `other` is part of
the same recording session when devices agree and, for `Hero11Black` only,
the MUIDs agree; for every other device the GUMIs agree. -/
def GoProFile.matches (self other : GoProFile) : Bool :=
  if self.device ≠ other.device then false
  else
    match self.device with
    | .hero11Black => self.muid = other.muid
    | _ => self.gumi = other.gumi

/-- A session-grouping key: an entry of the `muid2gopro` map or of the
`gumi2gopro` map in `GoProSession::sessions_from_path`. -/
inductive SessionKey where
  | muid (m : List ℕ)
  | gumi (g : List ℕ)
deriving DecidableEq

/-- The device-dependent grouping key used by step 2 of
`GoProSession::sessions_from_path` (session.rs lines 384-400): Hero 11/12/13
clips are keyed by full MUID, all other devices by full GUMI. -/
def sessionGroupKey (gp : GoProFile) : SessionKey :=
  match gp.device with
  | .hero11Black | .hero12Black | .hero13Black => .muid gp.muid
  | _ => .gumi gp.gumi

/-- The device-dependent key used by `GoProFile::matches` (and by the
anchor-clip filter inside the walk loop, session.rs lines 345-361): MUID
for `Hero11Black` only, GUMI for every other device. -/
def anchorKey (gp : GoProFile) : SessionKey :=
  match gp.device with
  | .hero11Black => .muid gp.muid
  | _ => .gumi gp.gumi

/-- The anchor-clip filter in the walk loop of
`GoProSession::sessions_from_path` (session.rs lines 345-361): a candidate
`gp` is kept for the given anchor exactly when the devices agree and, for
`Hero11Black`, the MUIDs agree, otherwise the GUMIs agree (a `continue`
skips it in every other case). -/
def anchorFilterKeep (gp anchor : GoProFile) : Bool :=
  if gp.device ≠ anchor.device then false
  else
    match gp.device with
    | .hero11Black => gp.muid = anchor.muid
    | _ => gp.gumi = anchor.gumi

/-- Step 2 of `GoProSession::sessions_from_path` (session.rs lines
384-411): group the deduplicated clips into one session per distinct
grouping key.  The Rust code inserts each clip into a `HashMap` entry list
and then collects the map's values; since `HashMap` iteration order is
unspecified, the sessions are modelled keyed in first-occurrence order of
the keys, each session holding the clips with that key in input order. -/
def sessionsByKey (files : List GoProFile) : List (SessionKey × List GoProFile) :=
  ((files.map sessionGroupKey).dedup).map
    (fun k => (k, files.filter (fun gp => sessionGroupKey gp = k)))

/-- `GoProSession::part_of` (session.rs lines 541-543): the anchor `gopro`
is part of a session when it `matches` some clip of the session. -/
def part_of (session : List GoProFile) (gopro : GoProFile) : Bool :=
  session.any (fun gp => gopro.matches gp)

/-- `GoProFile::merge` (gopro/file.rs lines 160-183): equal descriptors
merge trivially; differing fingerprints fail with `FingerprintMismatch`;
otherwise a non-zero `other.gumi` is adopted and `other`'s path slots are
copied in, failing with `PathNotSet` when `other` has neither path.  The
returned value is the final state of `self` on success. -/
def GoProFile.merge (self other : GoProFile) : Except GpmfErr GoProFile :=
  if self = other then .ok self
  else if self.fingerprint ≠ other.fingerprint then .error .fingerprintMismatch
  else
    let s1 := if other.gumi ≠ [0, 0, 0, 0] then { self with gumi := other.gumi } else self
    match other.mp4, other.lrv with
    | some hi, none => .ok { s1 with mp4 := some hi }
    | none, some low => .ok { s1 with lrv := some low }
    | some hi, some low => .ok { s1 with mp4 := some hi, lrv := some low }
    | none, none => .error .pathNotSet

/-- `GoProSession::serial` (session.rs lines 117-127): collect the set of
per-clip `CAME` serials that could be read (`filter_map(.ok())` into a
`HashSet`, modelled by `dedup` of the successful reads), assert that
exactly one unique serial exists (panicking otherwise), and return it.
The argument is the list of per-clip serial read results. -/
def sessionSerial (serials : List (Option (List ℕ))) : Except Panic (List ℕ) :=
  match (serials.filterMap id).dedup with
  | [s] => .ok s
  | _ => .error .assertFailed

/-! ## GPS extraction (`src/content_types/gps.rs`) -/

/-- Rust `f64::round`: round half away from zero. -/
def rustRound (q : ℚ) : ℤ :=
  if 0 ≤ q then ⌊q + 1 / 2⌋ else ⌈q - 1 / 2⌉

/-- Rust saturating cast of an integer-valued float to `u32`
(`as u32`): clamp into `[0, u32::MAX]`. -/
def u32clamp (z : ℤ) : ℤ :=
  max 0 (min z 4294967295)

/-- `GoProPoint` (gps.rs lines 116-143).  The `PrimitiveDateTime` is
modelled as rational seconds since the GoPro epoch 2000-01-01 00:00
(the `Default` datetime), so `Default` is 0. -/
structure GoProPoint where
  latitude : ℚ
  longitude : ℚ
  altitude : ℚ
  speed2d : ℚ
  speed3d : ℚ
  datetime : ℚ
  dop : Option ℚ
  fix : Option ℤ
  time : Option Timestamp
deriving DecidableEq

/-- `GoProPoint::default` (gps.rs lines 145-159). -/
def GoProPoint.defaultPoint : GoProPoint :=
  { latitude := 0, longitude := 0, altitude := 0, speed2d := 0, speed3d := 0,
    datetime := 0, dop := none, fix := none, time := none }

/-- One step of the `for_each` over the enumerated zip of GPS values and
scales in `GoProPoint::from_raw` (gps.rs lines 220-236). -/
def applyRawField (p : GoProPoint) : ℕ × ℚ × ℚ → GoProPoint
  | (i, g, s) =>
    match i with
    | 0 => { p with latitude := g / s }
    | 1 => { p with longitude := g / s }
    | 2 => { p with altitude := g / s }
    | 3 => { p with speed2d := g / s }
    | 4 => { p with speed3d := g / s }
    | 5 => { p with datetime := p.datetime + (g / s) * 86400 }
    | 6 => { p with datetime := p.datetime + g / s }
    | 7 => { p with dop := some (g / s) }
    | 8 => { p with fix := some (u32clamp (rustRound (g / s))) }
    | _ => p

/-- `GoProPoint::from_raw` (gps.rs lines 205-256): asserts the GPS slice
and the scale slice have equal length (panic otherwise), folds the scaled
fields into a default point, then applies the optional GPS5-only
timestamp, datetime, fix and DOP-x100 arguments. -/
def GoProPoint.from_raw (gps_slice scale_slice : List ℚ)
    (devc_timestamp : Option Timestamp) (datetime : Option ℚ)
    (dop : Option ℕ) (fix : Option ℕ) : Except Panic GoProPoint :=
  if gps_slice.length = scale_slice.length then
    let p0 := ((gps_slice.zip scale_slice).enum).foldl applyRawField GoProPoint.defaultPoint
    let p1 := match devc_timestamp with
      | some ts => { p0 with time := some ts }
      | none => p0
    let p2 := match datetime with
      | some dt => { p1 with datetime := dt }
      | none => p1
    let p3 := match fix with
      | some v => { p2 with fix := some (v : ℤ) }
      | none => p2
    let p4 := match dop with
      | some v => { p3 with dop := some ((v : ℚ) / 100) }
      | none => p3
    .ok p4
  else .error .assertFailed

/-- Collect a list of fallible computations in order, propagating the
first panic (models a panic escaping the `map`/`collect` in
`GoProPoint::from_gps9`). -/
def collectE : List (Except Panic α) → Except Panic (List α)
  | [] => .ok []
  | x :: xs =>
    match x with
    | .error e => .error e
    | .ok v =>
      match collectE xs with
      | .error e => .error e
      | .ok vs => .ok (v :: vs)

/-- The per-row fractional timestamp computed in `GoProPoint::from_gps9`
(gps.rs lines 380-383): row `i` of `len` gets
`((t.relative + i * t.duration / len).round() as u32,
  (t.duration / len).round() as u32)`. -/
def gps9RowTimestamp (time : Option Timestamp) (i len : ℕ) : Option Timestamp :=
  time.map (fun t =>
    { relative := u32clamp (rustRound ((t.relative : ℚ) + (i : ℚ) * (t.duration : ℚ) / (len : ℚ))),
      duration := u32clamp (rustRound ((t.duration : ℚ) / (len : ℚ))) })

/-- `GoProPoint::from_gps9` (gps.rs lines 362-389), parametrised over the
results of the two stream lookups: the `GPS9` rows (`find(GPS9)` +
`to_vec_f64()`), the `SCAL` values (`find(SCAL)` + `to_f64()`) and the
enclosing stream's `time`.  A missing lookup short-circuits to `none`
(the `?` operator); each row is converted by `from_raw` with its
fractional timestamp. -/
def GoProPoint.from_gps9 (gps9 : Option (List (List ℚ))) (scale : Option (List ℚ))
    (time : Option Timestamp) : Option (Except Panic (List GoProPoint)) := do
  let rows ← gps9
  let scl ← scale
  let len := rows.length
  some (collectE (rows.enum.map (fun iv =>
    GoProPoint.from_raw iv.2 scl (gps9RowTimestamp time iv.1 len) none none none)))

/-! ## Sensor extraction (`src/content_types/sensor/`) -/

/-- Axis orientation (`ORIN`).  The `Orientation` enum and its
`From<&str>` impl live in the sensor module file that is not among the
shipped sources; the variants are those matched by `SensorField::new`. -/
inductive Orientation where
  | XYZ | XZY | YZX | YXZ | ZXY | ZYX | Invalid
deriving DecidableEq

/-- Modelled from the spec: `Orientation::from(&str)` (sensor module file
not in the shipped sources).  The six 3-character axis permutations among
XYZ map to their variants; "Any other token fails the field", so every
other string maps to `Invalid`. -/
def Orientation.from_str (s : String) : Orientation :=
  if s = "XYZ" then .XYZ
  else if s = "XZY" then .XZY
  else if s = "YZX" then .YZX
  else if s = "YXZ" then .YXZ
  else if s = "ZXY" then .ZXY
  else if s = "ZYX" then .ZYX
  else .Invalid

/-- The orientation defaulting in `SensorData::new` (sensor_data.rs lines
42-49): parse the optional `ORIN` string, defaulting to `XZY` when the
atom is absent. -/
def orientationOfOrin (orin : Option String) : Orientation :=
  (orin.map Orientation.from_str).getD .XZY

/-- `SensorField` (sensor_field.rs lines 13-19). -/
structure SensorField where
  x : ℚ
  y : ℚ
  z : ℚ
deriving DecidableEq

/-- `SensorField::new` (sensor_field.rs lines 27-47): pick the three row
components in the order given by the ORIN permutation table (a missing
component or an `Invalid` orientation yields `None`), then divide each by
the scale. -/
def SensorField.new (xyz : List ℚ) (scale : ℚ) (orientation : Orientation) :
    Option SensorField := do
  let (x, y, z) ← match orientation with
    | .XYZ => do pure (← xyz.get? 0, ← xyz.get? 1, ← xyz.get? 2)
    | .XZY => do pure (← xyz.get? 0, ← xyz.get? 2, ← xyz.get? 1)
    | .YZX => do pure (← xyz.get? 2, ← xyz.get? 0, ← xyz.get? 1)
    | .YXZ => do pure (← xyz.get? 1, ← xyz.get? 0, ← xyz.get? 2)
    | .ZXY => do pure (← xyz.get? 1, ← xyz.get? 2, ← xyz.get? 0)
    | .ZYX => do pure (← xyz.get? 2, ← xyz.get? 1, ← xyz.get? 0)
    | .Invalid => none
  pure { x := x / scale, y := y / scale, z := z / scale }

/-! ## Stream data types (`src/content_types/data_types.rs`) -/

/-- `DataType` (data_types.rs lines 3-33). -/
inductive DataType where
  | Accelerometer
  | AccelerometerUrf
  | AgcAudioLevel
  | AverageLuminance
  | CameraOrientation
  | ExposureTime
  | FaceCoordinates
  | Gps5
  | Gps9
  | GravityVector
  | Gyroscope
  | GyroscopeZxy
  | ImageUniformity
  | ImageOrientation
  | LrvFrameSkip
  | MicrophoneWet
  | MrvFrameSkip
  | PredominantHue
  | SceneClassification
  | SensorGain
  | SensorIso
  | SensorReadOutTime
  | WhiteBalanceRgbGains
  | WhiteBalanceTemperature
  | WindProcessing
  | Other (s : String)
deriving DecidableEq

/-- `DataType::to_str` (data_types.rs lines 37-90). -/
def DataType.to_str : DataType → String
  | .Accelerometer => "Accelerometer"
  | .AccelerometerUrf => "Accelerometer (up/down, right/left, forward/back)"
  | .AgcAudioLevel => "AGC audio level[rms_level ,peak_level]"
  | .AverageLuminance => "Average luminance"
  | .CameraOrientation => "CameraOrientation"
  | .ExposureTime => "Exposure time (shutter speed)"
  | .FaceCoordinates => "Face Coordinates and details"
  | .Gps5 => "GPS (Lat., Long., Alt., 2D speed, 3D speed)"
  | .Gps9 => "GPS (Lat., Long., Alt., 2D, 3D, days, secs, DOP, fix)"
  | .GravityVector => "Gravity Vector"
  | .Gyroscope => "Gyroscope"
  | .GyroscopeZxy => "Gyroscope (z,x,y)"
  | .ImageUniformity => "Image uniformity"
  | .ImageOrientation => "ImageOrientation"
  | .LrvFrameSkip => "LRV Frame Skip"
  | .MicrophoneWet => "Microphone Wet[mic_wet, all_mics, confidence]"
  | .MrvFrameSkip => "MRV Frame Skip"
  | .PredominantHue => "Predominant hue[[hue, weight], ...]"
  | .SceneClassification => "Scene classification[[CLASSIFIER_FOUR_CC,prob], ...]"
  | .SensorGain => "Sensor gain"
  | .SensorIso => "Sensor ISO"
  | .SensorReadOutTime => "Sensor read out time"
  | .WhiteBalanceRgbGains => "White Balance RGB gains"
  | .WhiteBalanceTemperature => "White Balance temperature (Kelvin)"
  | .WindProcessing => "Wind Processing[wind_enable, meter_value(0 - 100)]"
  | .Other s => s

/-- `DataType::from_str` (data_types.rs lines 97-151).  Note the
`SensorGain` arm matches `"Sensor gain (ISO x100)"`, not the string
`to_str` renders for `SensorGain`. -/
def DataType.from_str (stream_type : String) : DataType :=
  if stream_type = "Accelerometer" then .Accelerometer
  else if stream_type = "Accelerometer (up/down, right/left, forward/back)" then .AccelerometerUrf
  else if stream_type = "AGC audio level[rms_level ,peak_level]" then .AgcAudioLevel
  else if stream_type = "Average luminance" then .AverageLuminance
  else if stream_type = "CameraOrientation" then .CameraOrientation
  else if stream_type = "Exposure time (shutter speed)" then .ExposureTime
  else if stream_type = "Face Coordinates and details" then .FaceCoordinates
  else if stream_type = "GPS (Lat., Long., Alt., 2D speed, 3D speed)" then .Gps5
  else if stream_type = "GPS (Lat., Long., Alt., 2D, 3D, days, secs, DOP, fix)" then .Gps9
  else if stream_type = "Gravity Vector" then .GravityVector
  else if stream_type = "Gyroscope" then .Gyroscope
  else if stream_type = "Gyroscope (z,x,y)" then .GyroscopeZxy
  else if stream_type = "Image uniformity" then .ImageUniformity
  else if stream_type = "ImageOrientation" then .ImageOrientation
  else if stream_type = "LRV Frame Skip" then .LrvFrameSkip
  else if stream_type = "Microphone Wet[mic_wet, all_mics, confidence]" then .MicrophoneWet
  else if stream_type = "MRV Frame Skip" then .MrvFrameSkip
  else if stream_type = "Predominant hue[[hue, weight], ...]" then .PredominantHue
  else if stream_type = "Scene classification[[CLASSIFIER_FOUR_CC,prob], ...]" then .SceneClassification
  else if stream_type = "Sensor gain (ISO x100)" then .SensorGain
  else if stream_type = "Sensor ISO" then .SensorIso
  else if stream_type = "Sensor read out time" then .SensorReadOutTime
  else if stream_type = "White Balance RGB gains" then .WhiteBalanceRgbGains
  else if stream_type = "White Balance temperature (Kelvin)" then .WhiteBalanceTemperature
  else if stream_type = "Wind Processing[wind_enable, meter_value(0 - 100)]" then .WindProcessing
  else .Other stream_type

/-! ## Helper lemmas -/

theorem Stream.timeOf_withTime (s : Stream) (t : Option Timestamp) :
    (s.withTime t).timeOf = t := by
  cases s <;> rfl

theorem applyRawField_time (p : GoProPoint) (x : ℕ × ℚ × ℚ) :
    (applyRawField p x).time = p.time := by
  obtain ⟨i, g, s⟩ := x
  rcases i with _ | _ | _ | _ | _ | _ | _ | _ | _ | i <;> rfl

theorem foldl_applyRawField_time (l : List (ℕ × ℚ × ℚ)) (p : GoProPoint) :
    (l.foldl applyRawField p).time = p.time := by
  induction l generalizing p with
  | nil => rfl
  | cons x xs ih => rw [List.foldl_cons, ih, applyRawField_time]

theorem collectE_map_ok {α β : Type} (f : α → Except Panic β) (g : α → β)
    (l : List α) (h : ∀ x ∈ l, f x = .ok (g x)) :
    collectE (l.map f) = .ok (l.map g) := by
  induction l with
  | nil => rfl
  | cons a l ih =>
    have ha := h a (List.mem_cons_self a l)
    have hl := ih (fun x hx => h x (List.mem_cons_of_mem a hx))
    simp only [List.map_cons, collectE, ha, hl]

theorem collectE_map_error {α β : Type} (f : α → Except Panic β) (l : List α)
    (h : ∃ x ∈ l, ∀ v, f x ≠ .ok v) :
    collectE (l.map f) = .error .assertFailed := by
  induction l with
  | nil => simp at h
  | cons a l ih =>
    rcases hfa : f a with e | v
    · cases e
      simp only [List.map_cons, collectE]
      rw [hfa]
    · obtain ⟨x, hx, hv⟩ := h
      rcases List.mem_cons.mp hx with rfl | hx
      · exact absurd hfa (hv v)
      · have := ih ⟨x, hx, hv⟩
        simp only [List.map_cons, collectE]
        rw [hfa, this]

theorem rustRound_nonneg {q : ℚ} (h : 0 ≤ q) : 0 ≤ rustRound q := by
  rw [rustRound, if_pos h]
  have : (0 : ℚ) ≤ q + 1 / 2 := by linarith
  exact Int.floor_nonneg.mpr this

theorem rustRound_le_int {q : ℚ} {d : ℤ} (h0 : 0 ≤ q) (h : q ≤ (d : ℚ)) :
    rustRound q ≤ d := by
  rw [rustRound, if_pos h0]
  have h1 : ⌊q + 1 / 2⌋ ≤ ⌊(d : ℚ) + 1 / 2⌋ := Int.floor_le_floor (by linarith)
  have h2 : ⌊(d : ℚ) + 1 / 2⌋ = d + ⌊(1 / 2 : ℚ)⌋ := Int.floor_int_add d _
  have h3 : ⌊(1 / 2 : ℚ)⌋ = 0 := by norm_num
  omega

theorem rustRound_int_add {r : ℤ} {x : ℚ} (hr : 0 ≤ r) (hx : 0 ≤ x) :
    rustRound ((r : ℚ) + x) = r + rustRound x := by
  have h1 : (0 : ℚ) ≤ (r : ℚ) + x := by positivity
  rw [rustRound, if_pos h1, rustRound, if_pos hx, add_assoc, Int.floor_int_add]

theorem u32clamp_eq {z : ℤ} (h0 : 0 ≤ z) (h1 : z ≤ 4294967295) : u32clamp z = z := by
  rw [u32clamp, min_eq_left h1, max_eq_right h0]

/-! ## Claim theorems -/

/-- C3.  `Timestamp::add` returns a timestamp whose `relative` is
`self.relative + other.relative + other.duration` and whose `duration` is
`self.duration` (the duration of `self` is unchanged). -/
theorem timestamp_add_spec (self other : Timestamp) :
    (self.add other).relative = self.relative + other.relative + other.duration ∧
    (self.add other).duration = self.duration :=
  ⟨rfl, rfl⟩

/-- C9.  `DataType::from_str ∘ DataType::to_str` is the identity on every
well-known variant except `SensorGain`, which round-trips to
`Other "Sensor gain"` because `to_str` renders it as `"Sensor gain"` while
`from_str` only maps `"Sensor gain (ISO x100)"` back. -/
theorem datatype_roundtrip (d : DataType) :
    (d ≠ .SensorGain → (∀ s, d ≠ .Other s) →
      DataType.from_str d.to_str = d) ∧
    DataType.from_str (DataType.to_str .SensorGain) = .Other "Sensor gain" := by
  constructor
  · intro h1 h2
    cases d <;> first
      | rfl
      | exact absurd rfl h1
      | exact absurd rfl (h2 _)
  · rfl

/-- C9 witness: the round-trip at two concrete variants. -/
theorem datatype_roundtrip_witness :
    DataType.from_str (DataType.to_str .Gyroscope) = .Gyroscope :=
  (datatype_roundtrip .Gyroscope).1 (by decide) (fun s h => DataType.noConfusion h)

/-- C6.  `SensorField::new` applies the fixed ORIN permutation table to a
3-element row and divides each component by the scale; an `Invalid`
orientation yields no field; a missing `ORIN` defaults to `XZY`; every
token outside the six permutations parses to `Invalid`. -/
theorem sensor_orientation_spec (a0 a1 a2 s : ℚ) :
    SensorField.new [a0, a1, a2] s .XYZ = some ⟨a0 / s, a1 / s, a2 / s⟩ ∧
    SensorField.new [a0, a1, a2] s .XZY = some ⟨a0 / s, a2 / s, a1 / s⟩ ∧
    SensorField.new [a0, a1, a2] s .YZX = some ⟨a2 / s, a0 / s, a1 / s⟩ ∧
    SensorField.new [a0, a1, a2] s .YXZ = some ⟨a1 / s, a0 / s, a2 / s⟩ ∧
    SensorField.new [a0, a1, a2] s .ZXY = some ⟨a1 / s, a2 / s, a0 / s⟩ ∧
    SensorField.new [a0, a1, a2] s .ZYX = some ⟨a2 / s, a1 / s, a0 / s⟩ ∧
    SensorField.new [a0, a1, a2] s .Invalid = none ∧
    orientationOfOrin none = .XZY ∧
    (∀ tok : String, tok ≠ "XYZ" → tok ≠ "XZY" → tok ≠ "YZX" → tok ≠ "YXZ" →
      tok ≠ "ZXY" → tok ≠ "ZYX" → Orientation.from_str tok = .Invalid) := by
  refine ⟨rfl, rfl, rfl, rfl, rfl, rfl, rfl, rfl, ?_⟩
  intro tok h1 h2 h3 h4 h5 h6
  simp [Orientation.from_str, h1, h2, h3, h4, h5, h6]

/-- C6 witness: the permutation table at a concrete row and an unknown
ORIN token. -/
theorem sensor_orientation_spec_witness :
    SensorField.new [2000, -1000, 0] 1000 .ZXY =
      some ⟨-1000 / 1000, 0 / 1000, 2000 / 1000⟩ ∧
    Orientation.from_str "QRS" = .Invalid := by
  have h := sensor_orientation_spec 2000 (-1000) 0 1000
  exact ⟨h.2.2.2.2.1,
    h.2.2.2.2.2.2.2.2 "QRS" (by decide) (by decide) (by decide) (by decide)
      (by decide) (by decide)⟩

/-- C8 counterexample: a session yielding zero readable `CAME` values does
not have "more than one unique value", yet `serial` still fails (the
assertion demands exactly one). -/
theorem session_serial_counterexample :
    sessionSerial [] = .error .assertFailed ∧
    (List.filterMap id ([] : List (Option (List ℕ)))).dedup.length ≤ 1 := by
  exact ⟨rfl, by simp⟩

/-- C8 (amended).  `GoProSession::serial` returns the single shared serial
when the readable `CAME` values have exactly one unique member, and fails
(an assertion panic, not a recoverable error) whenever the number of
unique values is not exactly one — including zero. -/
theorem session_serial_spec (serials : List (Option (List ℕ))) (s : List ℕ) :
    (sessionSerial serials = .ok s ↔ (serials.filterMap id).dedup = [s]) ∧
    ((∃ e, sessionSerial serials = .error e) ↔
      (serials.filterMap id).dedup.length ≠ 1) := by
  rcases h : (serials.filterMap id).dedup with _ | ⟨a, _ | ⟨b, t⟩⟩ <;>
    simp [sessionSerial, h] <;> exact ⟨.assertFailed, trivial⟩

/-- C8 witness: a concrete session with one shared serial. -/
theorem session_serial_spec_witness :
    sessionSerial [some [4, 2], none, some [4, 2]] = .ok [4, 2] :=
  (session_serial_spec [some [4, 2], none, some [4, 2]] [4, 2]).1.mpr (by decide)

/-- C7 counterexample: two descriptors with equal fingerprints where the
other descriptor has neither path slot set — `merge` fails with
`PathNotSet` instead of accumulating the path slots. -/
theorem gopro_merge_counterexample :
    (⟨.hero5Black, some "GX010001.MP4", none, [1, 1, 1, 1, 1, 1, 1, 1],
      [1, 1, 1, 1], [7, 7], 0, 0, 0⟩ : GoProFile).fingerprint =
      (⟨.hero5Black, none, none, [2, 2, 2, 2, 2, 2, 2, 2],
        [1, 1, 1, 1], [7, 7], 0, 0, 0⟩ : GoProFile).fingerprint ∧
    GoProFile.merge
      ⟨.hero5Black, some "GX010001.MP4", none, [1, 1, 1, 1, 1, 1, 1, 1],
        [1, 1, 1, 1], [7, 7], 0, 0, 0⟩
      ⟨.hero5Black, none, none, [2, 2, 2, 2, 2, 2, 2, 2],
        [1, 1, 1, 1], [7, 7], 0, 0, 0⟩ = .error .pathNotSet := by
  exact ⟨rfl, by decide⟩

/-- C7 (amended).  `GoProFile::merge` fails with `FingerprintMismatch`
exactly when the fingerprints differ; with equal fingerprints and at least
one path slot set on `other` it succeeds, accumulating the path slots
(`other`'s slot wins where set) and adopting `other`'s GUMI exactly when
it is not `[0,0,0,0]`; with equal fingerprints, differing descriptors and
no path slot on `other` it fails with `PathNotSet`. -/
theorem gopro_merge_spec (f g : GoProFile) :
    (GoProFile.merge f g = .error .fingerprintMismatch ↔
      f.fingerprint ≠ g.fingerprint) ∧
    (f.fingerprint = g.fingerprint → (g.mp4 ≠ none ∨ g.lrv ≠ none) →
      GoProFile.merge f g = .ok
        { f with mp4 := g.mp4.or f.mp4, lrv := g.lrv.or f.lrv,
                 gumi := if g.gumi = [0, 0, 0, 0] then f.gumi else g.gumi }) ∧
    (f.fingerprint = g.fingerprint → g.mp4 = none → g.lrv = none → f ≠ g →
      GoProFile.merge f g = .error .pathNotSet) := by
  refine ⟨⟨?_, ?_⟩, ?_, ?_⟩
  · intro h hfp
    by_cases hfg : f = g
    · rw [GoProFile.merge, if_pos hfg] at h
      exact Except.noConfusion h
    · rw [GoProFile.merge, if_neg hfg, if_neg (by simpa using hfp)] at h
      rcases hm : g.mp4 with _ | hi <;> rcases hl : g.lrv with _ | low <;>
        rw [hm, hl] at h <;> simp at h
  · intro hfp
    have hfg : f ≠ g := fun e => hfp (by rw [e])
    rw [GoProFile.merge, if_neg hfg, if_pos (by simpa using hfp)]
  · intro hfp hpath
    by_cases hfg : f = g
    · subst hfg
      rw [GoProFile.merge, if_pos rfl]
      have h1 : f.mp4.or f.mp4 = f.mp4 := by cases f.mp4 <;> rfl
      have h2 : f.lrv.or f.lrv = f.lrv := by cases f.lrv <;> rfl
      rw [h1, h2, ite_self]
    · rw [GoProFile.merge, if_neg hfg, if_neg (by simpa using hfp)]
      rcases hm : g.mp4 with _ | hi <;> rcases hl : g.lrv with _ | low
      · rw [hm, hl] at hpath
        simp at hpath
      all_goals by_cases hg : g.gumi = [0, 0, 0, 0] <;> simp [hg, Option.or]
  · intro hfp hm hl hfg
    rw [GoProFile.merge, if_neg hfg, if_neg (by simpa using hfp), hm, hl]

/-- C7 witness: a high-resolution clip merged with its low-resolution
sibling whose GUMI is zeroed keeps the non-zero GUMI and gains the
low-resolution path. -/
theorem gopro_merge_spec_witness :
    GoProFile.merge
      ⟨.hero11Black, some "GX010001.MP4", none, [1, 2, 3, 4, 5, 6, 7, 8],
        [5, 5, 5, 5], [9], 0, 0, 0⟩
      ⟨.hero11Black, none, some "GL010001.LRV", [1, 2, 3, 4, 5, 6, 7, 8],
        [0, 0, 0, 0], [9], 0, 0, 0⟩ =
      .ok ⟨.hero11Black, some "GX010001.MP4", some "GL010001.LRV",
        [1, 2, 3, 4, 5, 6, 7, 8], [5, 5, 5, 5], [9], 0, 0, 0⟩ := by
  have h := (gopro_merge_spec
    ⟨.hero11Black, some "GX010001.MP4", none, [1, 2, 3, 4, 5, 6, 7, 8],
      [5, 5, 5, 5], [9], 0, 0, 0⟩
    ⟨.hero11Black, none, some "GL010001.LRV", [1, 2, 3, 4, 5, 6, 7, 8],
      [0, 0, 0, 0], [9], 0, 0, 0⟩).2.1 rfl (Or.inr (by decide))
  simpa using h

/-- C4 counterexample: the unknown tag `[0xFF, 'A', 'B', 'C']` is not a
well-known code and not four NULs, yet the parse/format round-trip does
not preserve its bytes — `from_utf8_lossy` replaces the invalid byte
`0xFF` with the three-byte U+FFFD encoding. -/
theorem fourcc_roundtrip_counterexample :
    knownFourCC.lookup [255, 65, 66, 67] = none ∧
    ([255, 65, 66, 67] : List ℕ) ≠ [0, 0, 0, 0] ∧
    FourCC.to_str (FourCC.from_slice [255, 65, 66, 67]) =
      [239, 191, 189, 65, 66, 67] ∧
    FourCC.to_str (FourCC.from_slice [255, 65, 66, 67]) ≠ [255, 65, 66, 67] := by
  refine ⟨rfl, by decide, by decide, by decide⟩

/-- C4 (amended).  For every four-byte tag that is not a well-known code,
not four NUL bytes, and valid UTF-8, the `from_slice`/`to_str` round-trip
returns exactly the original bytes; invalid UTF-8 bytes are altered by the
`from_utf8_lossy` repair, as the counterexample shows. -/
theorem fourcc_roundtrip_utf8 (bs : List ℕ) (hk : knownFourCC.lookup bs = none)
    (hlen : bs.length = 4) (hz : bs ≠ [0, 0, 0, 0])
    (hv : utf8Valid bs = true) :
    FourCC.to_str (FourCC.from_slice bs) = bs := by
  have h1 : ¬(bs = [0] ∨ bs = [0, 0, 0, 0]) := by
    rintro (h | h)
    · rw [h] at hlen
      simp at hlen
    · exact hz h
  rw [FourCC.from_slice, hk, if_neg h1]
  show utf8Lossy bs = bs
  rw [utf8Lossy, if_pos hv]

/-- C4 witness: the unknown but valid-UTF-8 tag "QQTT" round-trips to
itself. -/
theorem fourcc_roundtrip_utf8_witness :
    FourCC.to_str (FourCC.from_slice [81, 81, 84, 84]) = [81, 81, 84, 84] :=
  fourcc_roundtrip_utf8 [81, 81, 84, 84] rfl (by decide) (by decide) (by decide)

/-- C2.  `Gpmf::merge_mut` appends the second gpmf's streams after the
first's and shifts each of its timestamps by the first's last
`relative + duration`; when the second gpmf's first timestamp has
`relative = 0` (as for a parsed clip, whose first MP4 sample starts at 0),
the first timestamp of the appended part is exactly
`A.last.relative + A.last.duration`. -/
theorem gpmf_merge_law (a b : Gpmf) (tsA tsB : Timestamp)
    (hA : a.last_timestamp = some tsA) (hB : b.first_timestamp = some tsB)
    (h0 : tsB.relative = 0) :
    (Gpmf.merge_mut a b).streams =
      a.streams ++ b.streams.map (fun devc => devc.withTime (devc.timeOf.map
        (fun t => ⟨t.relative + (tsA.relative + tsA.duration), t.duration⟩))) ∧
    ((Gpmf.merge_mut a b).streams.drop a.streams.length).head?.bind Stream.timeOf =
      some ⟨tsA.relative + tsA.duration, tsB.duration⟩ := by
  have hoffs : (Gpmf.merge_mut a b).streams =
      a.streams ++ (b.offset_time tsA).streams := by
    rw [Gpmf.merge_mut, hA]
  have hmap : (b.offset_time tsA).streams =
      b.streams.map (fun devc => devc.withTime (devc.timeOf.map
        (fun t => ⟨t.relative + (tsA.relative + tsA.duration), t.duration⟩))) := by
    rw [Gpmf.offset_time]
    refine List.map_congr_left (fun s _ => ?_)
    congr 1
    rcases s.timeOf with _ | t
    · rfl
    · simp [Timestamp.add, add_assoc]
  constructor
  · rw [hoffs, hmap]
  · rw [hoffs, List.drop_left]
    rw [Gpmf.first_timestamp] at hB
    rcases hs0 : b.streams with _ | ⟨s0, srest⟩
    · rw [hs0] at hB
      simp at hB
    · rw [hs0] at hB
      simp only [List.head?_cons, Option.some_bind] at hB
      rw [Gpmf.offset_time]
      simp only [hs0, List.map_cons, List.head?_cons, Option.some_bind]
      rw [Stream.timeOf_withTime, hB]
      simp [Timestamp.add, h0]

/-- C2 witness: two concrete single-sample clips; the second clip's first
timestamp after merging is 0 + 1001. -/
theorem gpmf_merge_law_witness :
    ((Gpmf.merge_mut
        ⟨[Stream.values .DEVC (some ⟨0, 1001⟩) []], ["GX010001.MP4"]⟩
        ⟨[Stream.values .DEVC (some ⟨0, 55⟩) []], ["GX020001.MP4"]⟩).streams.drop
      ([Stream.values .DEVC (some ⟨0, 1001⟩) []] : List Stream).length).head?.bind
      Stream.timeOf = some ⟨1001, 55⟩ := by
  simpa using (gpmf_merge_law
    ⟨[Stream.values .DEVC (some ⟨0, 1001⟩) []], ["GX010001.MP4"]⟩
    ⟨[Stream.values .DEVC (some ⟨0, 55⟩) []], ["GX020001.MP4"]⟩
    ⟨0, 1001⟩ ⟨0, 55⟩ rfl rfl rfl).2

/-- Helper for C1: `GoProFile::matches` decides device equality plus
equality of the `anchorKey` (MUID for Hero 11 only, GUMI otherwise). -/
theorem matches_iff_anchorKey (f g : GoProFile) :
    GoProFile.matches f g = true ↔
      f.device = g.device ∧ anchorKey f = anchorKey g := by
  obtain ⟨df, fm, fl, fmu, fgu, ffp, fc, fd, ft⟩ := f
  obtain ⟨dg, gm, gl, gmu, ggu, gfp, gc, gd, gt⟩ := g
  by_cases hd : df = dg
  · subst hd
    cases df <;> simp [GoProFile.matches, anchorKey]
  · simp [GoProFile.matches, anchorKey, hd]

/-- C1 counterexample: two Hero 12 clips with the same device and the same
session-grouping key (equal MUIDs), yet the anchor matching
(`GoProFile::matches` / `GoProSession::part_of`) rejects the pair because
it compares GUMI for every device other than Hero 11. -/
theorem session_anchor_counterexample :
    (⟨.hero12Black, some "GX010001.MP4", none, [1, 1, 1, 1, 1, 1, 1, 1],
      [3, 3, 3, 3], [1], 0, 0, 0⟩ : GoProFile).device =
      (⟨.hero12Black, some "GX020001.MP4", none, [1, 1, 1, 1, 1, 1, 1, 1],
        [4, 4, 4, 4], [2], 0, 0, 0⟩ : GoProFile).device ∧
    sessionGroupKey
      ⟨.hero12Black, some "GX010001.MP4", none, [1, 1, 1, 1, 1, 1, 1, 1],
        [3, 3, 3, 3], [1], 0, 0, 0⟩ =
      sessionGroupKey
        ⟨.hero12Black, some "GX020001.MP4", none, [1, 1, 1, 1, 1, 1, 1, 1],
          [4, 4, 4, 4], [2], 0, 0, 0⟩ ∧
    GoProFile.matches
      ⟨.hero12Black, some "GX010001.MP4", none, [1, 1, 1, 1, 1, 1, 1, 1],
        [3, 3, 3, 3], [1], 0, 0, 0⟩
      ⟨.hero12Black, some "GX020001.MP4", none, [1, 1, 1, 1, 1, 1, 1, 1],
        [4, 4, 4, 4], [2], 0, 0, 0⟩ = false ∧
    part_of
      [⟨.hero12Black, some "GX020001.MP4", none, [1, 1, 1, 1, 1, 1, 1, 1],
        [4, 4, 4, 4], [2], 0, 0, 0⟩]
      ⟨.hero12Black, some "GX010001.MP4", none, [1, 1, 1, 1, 1, 1, 1, 1],
        [3, 3, 3, 3], [1], 0, 0, 0⟩ = false := by
  exact ⟨rfl, rfl, by decide, by decide⟩

/-- C1 (amended).  The session builder partitions deduplicated clips into
one session per distinct device-dependent key (MUID for Hero 11/12/13,
GUMI otherwise): session keys are distinct, every member of a session has
the session's key, and every clip lands in the session of its key.  Anchor
matching, however (`GoProFile::matches`, the in-walk anchor filter, and
`GoProSession::part_of`), matches on device plus MUID for Hero 11 Black
only and GUMI for every other device — which agrees with the grouping key
except for Hero 12/13, where grouping uses MUID but matching uses GUMI. -/
theorem session_grouping_and_anchor (files : List GoProFile)
    (f g : GoProFile) (s : List GoProFile) :
    ((sessionsByKey files).map Prod.fst).Nodup ∧
    (∀ k gps, (k, gps) ∈ sessionsByKey files → ∀ x ∈ gps, sessionGroupKey x = k) ∧
    (∀ x ∈ files, ∃ gps, (sessionGroupKey x, gps) ∈ sessionsByKey files ∧ x ∈ gps) ∧
    (GoProFile.matches f g = true ↔
      f.device = g.device ∧ anchorKey f = anchorKey g) ∧
    anchorFilterKeep f g = GoProFile.matches f g ∧
    (part_of s f = true ↔ ∃ x ∈ s, GoProFile.matches f x = true) := by
  refine ⟨?_, ?_, ?_, matches_iff_anchorKey f g, ?_, ?_⟩
  · have h : (sessionsByKey files).map Prod.fst =
        (files.map sessionGroupKey).dedup := by
      simp [sessionsByKey, List.map_map, Function.comp_def]
    rw [h]
    exact (files.map sessionGroupKey).nodup_dedup
  · intro k gps hmem x hx
    rw [sessionsByKey, List.mem_map] at hmem
    obtain ⟨k2, _, heq⟩ := hmem
    injection heq with h1 h2
    subst h1
    subst h2
    have := List.of_mem_filter hx
    exact of_decide_eq_true this
  · intro x hx
    refine ⟨files.filter (fun gp => sessionGroupKey gp = sessionGroupKey x), ?_, ?_⟩
    · rw [sessionsByKey, List.mem_map]
      exact ⟨sessionGroupKey x,
        List.mem_dedup.mpr (List.mem_map_of_mem sessionGroupKey hx), rfl⟩
    · exact List.mem_filter.mpr ⟨hx, by simp⟩
  · obtain ⟨df, fm, fl, fmu, fgu, ffp, fc, fd, ft⟩ := f
    obtain ⟨dg, gm, gl, gmu, ggu, gfp, gc, gd, gt⟩ := g
    by_cases hd : df = dg
    · subst hd
      cases df <;> rfl
    · simp [GoProFile.matches, anchorFilterKeep, hd]
  · simp [part_of, List.any_eq_true]

/-- C1 witness: two Hero 11 clips with equal MUIDs are grouped together
and anchor-matched. -/
theorem session_grouping_and_anchor_witness :
    GoProFile.matches
      ⟨.hero11Black, some "GX010001.MP4", none, [1, 2, 3, 4, 5, 6, 7, 8],
        [3, 3, 3, 3], [1], 0, 0, 0⟩
      ⟨.hero11Black, some "GX020001.MP4", none, [1, 2, 3, 4, 5, 6, 7, 8],
        [4, 4, 4, 4], [2], 0, 0, 0⟩ = true :=
  (session_grouping_and_anchor []
    ⟨.hero11Black, some "GX010001.MP4", none, [1, 2, 3, 4, 5, 6, 7, 8],
      [3, 3, 3, 3], [1], 0, 0, 0⟩
    ⟨.hero11Black, some "GX020001.MP4", none, [1, 2, 3, 4, 5, 6, 7, 8],
      [4, 4, 4, 4], [2], 0, 0, 0⟩ []).2.2.2.1.mpr ⟨rfl, rfl⟩

/-- C5.  For a GPS9 `STRM` of `N` rows under a stream timestamp `(r, d)`
with `r, d` in `u32` range, the extractor gives row `i` the timestamp pair
`(r + round(i·d/N), round(d/N))`, rounded to the nearest millisecond. -/
theorem gps9_per_point_timing (rows : List (List ℚ)) (scl : List ℚ)
    (r d : ℤ) (i : ℕ)
    (hlen : ∀ row ∈ rows, row.length = scl.length) (hi : i < rows.length)
    (hr : 0 ≤ r) (hd : 0 ≤ d) (hmax : r + d ≤ 4294967295) :
    ∃ pts, GoProPoint.from_gps9 (some rows) (some scl) (some ⟨r, d⟩) =
        some (.ok pts) ∧
      ∃ p, pts.get? i = some p ∧
        p.time = some ⟨r + rustRound ((i : ℚ) * (d : ℚ) / (rows.length : ℚ)),
                       rustRound ((d : ℚ) / (rows.length : ℚ))⟩ := by
  have hlen0 : 0 < rows.length := lt_of_le_of_lt (Nat.zero_le i) hi
  have hN1 : (1 : ℚ) ≤ (rows.length : ℚ) := by exact_mod_cast hlen0
  have hN0 : (0 : ℚ) < (rows.length : ℚ) := by linarith
  have hdq : (0 : ℚ) ≤ (d : ℚ) := by exact_mod_cast hd
  -- the per-row point produced by `from_raw`
  set g : ℕ × List ℚ → GoProPoint := fun iv =>
    { ((iv.2.zip scl).enum.foldl applyRawField GoProPoint.defaultPoint) with
      time := gps9RowTimestamp (some ⟨r, d⟩) iv.1 rows.length } with hg
  have hok : ∀ iv ∈ rows.enum,
      GoProPoint.from_raw iv.2 scl (gps9RowTimestamp (some ⟨r, d⟩) iv.1 rows.length)
        none none none = .ok (g iv) := by
    intro iv hiv
    have hmem : iv.2 ∈ rows := by
      have := List.mem_enum_iff_get?.mp hiv
      exact List.get?_mem this
    rw [GoProPoint.from_raw, if_pos (hlen iv.2 hmem)]
    simp only [gps9RowTimestamp, Option.map_some]
    rfl
  have hcoll := collectE_map_ok _ g rows.enum hok
  refine ⟨rows.enum.map g, ?_, ?_⟩
  · show some (collectE (rows.enum.map (fun iv =>
        GoProPoint.from_raw iv.2 scl (gps9RowTimestamp (some ⟨r, d⟩) iv.1 rows.length)
          none none none))) = some (Except.ok (rows.enum.map g))
    rw [hcoll]
  · have hget : rows.enum.get? i = (rows.get? i).map fun a => (i, a) :=
      List.get?_enum rows i
    obtain ⟨row, hrow⟩ : ∃ row, rows.get? i = some row :=
      Option.isSome_iff_exists.mp (by rw [List.get?_eq_get hi]; rfl)
    refine ⟨g (i, row), ?_, ?_⟩
    · rw [List.get?_map, hget, hrow]
      rfl
    · show gps9RowTimestamp (some ⟨r, d⟩) i rows.length = _
      simp only [gps9RowTimestamp, Option.map_some']
      -- arithmetic: the clamps are identities and the integral shift r
      -- commutes with the rounding
      have hx0 : (0 : ℚ) ≤ (i : ℚ) * (d : ℚ) / (rows.length : ℚ) := by positivity
      have hxd : (i : ℚ) * (d : ℚ) / (rows.length : ℚ) ≤ (d : ℚ) := by
        rw [div_le_iff hN0]
        have hiN : (i : ℚ) ≤ (rows.length : ℚ) := by
          exact_mod_cast Nat.le_of_lt hi
        calc (i : ℚ) * (d : ℚ) ≤ (rows.length : ℚ) * (d : ℚ) :=
              mul_le_mul_of_nonneg_right hiN hdq
          _ = (d : ℚ) * (rows.length : ℚ) := mul_comm _ _
      have hy0 : (0 : ℚ) ≤ (d : ℚ) / (rows.length : ℚ) := by positivity
      have hyd : (d : ℚ) / (rows.length : ℚ) ≤ (d : ℚ) := div_le_self hdq hN1
      have hrel : rustRound ((r : ℚ) + (i : ℚ) * (d : ℚ) / (rows.length : ℚ)) =
          r + rustRound ((i : ℚ) * (d : ℚ) / (rows.length : ℚ)) :=
        rustRound_int_add hr hx0
      have hb1 : 0 ≤ rustRound ((i : ℚ) * (d : ℚ) / (rows.length : ℚ)) :=
        rustRound_nonneg hx0
      have hb2 : rustRound ((i : ℚ) * (d : ℚ) / (rows.length : ℚ)) ≤ d :=
        rustRound_le_int hx0 hxd
      have hb3 : 0 ≤ rustRound ((d : ℚ) / (rows.length : ℚ)) :=
        rustRound_nonneg hy0
      have hb4 : rustRound ((d : ℚ) / (rows.length : ℚ)) ≤ d :=
        rustRound_le_int hy0 hyd
      rw [hrel, u32clamp_eq (by omega) (by omega), u32clamp_eq (by omega) (by omega)]

/-- C5 witness: two single-column rows under timestamp `(1000, 1000)`; row
1 gets `(1500, 500)`. -/
theorem gps9_per_point_timing_witness :
    ∃ pts, GoProPoint.from_gps9 (some [[5], [6]]) (some [7])
        (some ⟨1000, 1000⟩) = some (.ok pts) ∧
      ∃ p, pts.get? 1 = some p ∧ p.time = some ⟨1500, 500⟩ := by
  obtain ⟨pts, h1, p, h2, h3⟩ := gps9_per_point_timing [[5], [6]] [7] 1000 1000 1
    (by decide) (by decide) (by decide) (by decide) (by decide)
  refine ⟨pts, h1, p, h2, ?_⟩
  rw [h3]
  norm_num [rustRound]

/-- C10.  `GoProPoint::from_raw` succeeds exactly when the GPS value slice
and the scale slice have equal length and otherwise panics on its
assertion; consequently `from_gps9` panics (rather than returning `None`
or broadcasting) whenever some row's arity differs from the `SCAL`
arity. -/
theorem from_raw_length_assert (gps scl : List ℚ) (ts : Option Timestamp)
    (dt : Option ℚ) (dop fix : Option ℕ) (rows : List (List ℚ))
    (scl2 : List ℚ) (t : Option Timestamp) :
    ((∃ p, GoProPoint.from_raw gps scl ts dt dop fix = .ok p) ↔
      gps.length = scl.length) ∧
    (GoProPoint.from_raw gps scl ts dt dop fix = .error .assertFailed ↔
      gps.length ≠ scl.length) ∧
    ((∃ row ∈ rows, row.length ≠ scl2.length) →
      GoProPoint.from_gps9 (some rows) (some scl2) t =
        some (.error .assertFailed)) := by
  refine ⟨?_, ?_, ?_⟩
  · by_cases h : gps.length = scl.length <;> simp [GoProPoint.from_raw, h]
  · by_cases h : gps.length = scl.length <;> simp [GoProPoint.from_raw, h]
  · rintro ⟨row, hrow, hne⟩
    obtain ⟨i, hget⟩ := List.mem_iff_get?.mp hrow
    have herr := collectE_map_error
      (fun iv : ℕ × List ℚ =>
        GoProPoint.from_raw iv.2 scl2 (gps9RowTimestamp t iv.1 rows.length)
          none none none)
      rows.enum
      ⟨(i, row), List.mem_enum_iff_get?.mpr hget, fun v hv => by
        simp only [GoProPoint.from_raw, if_neg hne] at hv
        exact Except.noConfusion hv⟩
    show some (collectE (rows.enum.map (fun iv =>
        GoProPoint.from_raw iv.2 scl2 (gps9RowTimestamp t iv.1 rows.length)
          none none none))) = some (Except.error Panic.assertFailed)
    rw [herr]

/-- C10 witness: a 3-column row against a 2-entry scale panics. -/
theorem from_raw_length_assert_witness :
    GoProPoint.from_gps9 (some [[1, 2, 3]]) (some [10, 10]) none =
      some (.error .assertFailed) :=
  (from_raw_length_assert [] [] none none none none [[1, 2, 3]] [10, 10]
    none).2.2 ⟨[1, 2, 3], by decide, by decide⟩

end GpmfRs
